import Mathlib

/-!
Verification of the goods-item resolution engine and the cancellable
action-execution layer of `LiveController`
(src/electron/main/tasks/controller/LiveController.ts).

The page-backed session is shallowly embedded: an `ItemHandle` in a
`VisibleWindow` becomes a `GoodsItem` (an opaque element token paired with
the identifier that `getIdFromGoodsItem` extracts for it); one recursive
iteration of `findGoodsItemById` reads its environment from a `ScanStep`
(the window materialized at that iteration, whether the scroll container is
present, and the `scrollTop` value read after the one-second settle delay).
JavaScript `Number.NaN` as the initial `prevScrollTop` baseline is embedded
as `Option Int` with `none` for NaN, so that the guard
`!Number.isNaN(prevScrollTop)` becomes a match on the option.

`Promise.any` over the per-handle identifier probes resolves with some
fulfilled probe, that is with some handle of the window whose identifier
equals the target; it is embedded as `List.find?`, which agrees with every
possible winner whenever identifiers are unique in the window (the
catalog-uniqueness invariant), and agrees exactly with the rejection of all
probes in the no-match case.
-/

/-- One rendered catalog entry: an opaque element identity `elem` together
with the numeric identifier `id` that the element finder extracts from it. -/
structure GoodsItem where
  elem : Nat
  id : Int
deriving DecidableEq, Repr

/-- The errors the controller can raise.  `notFound` carries which of the
two NotFound situations produced it; the remaining constructors embed the
other thrown errors of `LiveController` and the spec taxonomy. -/
inductive NotFoundReason where
  /-- 没有上架任何商品 — the visible window is empty. -/
  | emptyCatalog
  /-- 找不到商品，请确认商品 id 是否正确 — scroll stagnated with no match. -/
  | exhausted
deriving DecidableEq, Repr

inductive LiveError where
  | notFound (r : NotFoundReason)
  /-- 找不到滚动容器？ -/
  | noScrollContainer
  /-- 找不到评论框 -/
  | noCommentBox
  /-- 无法点击发布按钮 -/
  | noSubmitButton
  | noPopupTrigger
  | popupConfirmationTimeout
  | aborted
deriving DecidableEq, Repr

/-- Result shape of `getCurrentGoodsItem`: the TS code returns
`{ element, found: true }` on a probe match and `{ element }` (so `found`
is falsy) with the chosen scroll anchor otherwise. -/
structure ProbeResult where
  element : GoodsItem
  found : Bool
deriving DecidableEq, Repr

/-- `getCurrentGoodsItem` (LiveController.ts lines 159-216).  The concurrent
probe phase is `find?` on the window (see the header comment); if no probe
matches, the first/last handles give `isReversed := firstIdValue > lastIdValue`
and the scroll anchor is the first handle when
`(!isReversed && id < firstIdValue) || (isReversed && id > firstIdValue)`,
otherwise the last handle. -/
def getCurrentGoodsItem (id : Int) (currentGoodsItems : List GoodsItem) :
    Except LiveError ProbeResult :=
  match currentGoodsItems.find? (fun g => decide (g.id = id)) with
  | some element => .ok ⟨element, true⟩
  | none =>
    match currentGoodsItems.head?, currentGoodsItems.getLast? with
    | some firstGoodsItem, some lastGoodsItem =>
      let firstIdValue := firstGoodsItem.id
      let lastIdValue := lastGoodsItem.id
      let isReversed : Prop := firstIdValue > lastIdValue
      if (¬ isReversed ∧ id < firstIdValue) ∨ (isReversed ∧ id > firstIdValue)
      then .ok ⟨firstGoodsItem, false⟩
      else .ok ⟨lastGoodsItem, false⟩
    | _, _ => .error (.notFound .emptyCatalog)

/-- Environment of one recursive iteration of `findGoodsItemById`: the
window the page has materialized, whether `getGoodsItemsScrollContainer`
finds the container, and the `scrollTop` read after the settle `sleep`. -/
structure ScanStep where
  window : List GoodsItem
  scrollContainer : Bool
  scrollTopAfterSettle : Int
deriving DecidableEq, Repr

/-- Outcome of one iteration of the scan loop. -/
inductive IterOutcome where
  | found (g : GoodsItem)
  | fail (e : LiveError)
  | next (newScrollTop : Int)
deriving DecidableEq, Repr

/-- One iteration of `findGoodsItemById` (LiveController.ts lines 124-157):
probe the window; on a match return the handle; otherwise scroll the anchor
into view, fail if the scroll container is absent, settle, re-read
`scrollTop`, fail `exhausted` when a non-NaN baseline is within the ±10
tolerance band of the new position, and otherwise continue with the new
position. -/
def scanIter (id : Int) (prevScrollTop : Option Int) (step : ScanStep) :
    IterOutcome :=
  match getCurrentGoodsItem id step.window with
  | .error e => .fail e
  | .ok r =>
    if r.found then .found r.element
    else if step.scrollContainer = false then .fail .noScrollContainer
    else
      match prevScrollTop with
      | some p =>
        if p - 10 ≤ step.scrollTopAfterSettle ∧
            step.scrollTopAfterSettle ≤ p + 10 then
          .fail (.notFound .exhausted)
        else .next step.scrollTopAfterSettle
      | none => .next step.scrollTopAfterSettle

/-- `findGoodsItemById`, recursing over the per-iteration environments;
`none` means the supplied environment ran out before the scan settled
(the TS recursion would keep scanning). -/
def findGoodsItemById (id : Int) :
    List ScanStep → Option Int → Option (Except LiveError GoodsItem)
  | [], _ => none
  | step :: rest, prevScrollTop =>
    match scanIter id prevScrollTop step with
    | .found g => some (.ok g)
    | .fail e => some (.error e)
    | .next cur => findGoodsItemById id rest (some cur)

deriving instance DecidableEq for Except

/-- The page interactions the action executor can dispatch; traces of these
record which UI actions a command actually performed. -/
inductive UIAction where
  | dismissOverlay (selector : String)
  | fillComment (message : String)
  | clickPin
  | clickSubmit
  | scrollIntoView
  | settleWait
  | readScrollTop
  | clickPopUpTrigger
deriving DecidableEq, Repr

/-- Page-session state as `sendMessage` observes it: the overlay close
buttons currently present, and whether `getCommentTextarea`,
`getPinTopLabel` and `getClickableSubmitCommentButton` find their
controls (`getClickableSubmitCommentButton` is truthy only when the
submit control is present and clickable). -/
structure SessionState where
  overlays : List String
  hasCommentTextarea : Bool
  hasPinTopLabel : Bool
  hasClickableSubmitButton : Bool
deriving DecidableEq, Repr

/-- `recoveryLive` (lines 108-115): dispatch a click on every present
overlay close button; absence is a no-op and nothing fails. -/
def recoveryLive (s : SessionState) : List UIAction :=
  s.overlays.map (fun selector => .dismissOverlay selector)

/-- `clickPinTopButton` (lines 218-226): click the pin-top label when it is
present and report `true`; when absent, log a warning, click nothing and
report `false`. -/
def clickPinTopButton (s : SessionState) : Bool × List UIAction :=
  if s.hasPinTopLabel then (true, [.clickPin]) else (false, [])

/-- `clickSubmitCommentButton` (lines 228-235): click the clickable submit
button, or throw 无法点击发布按钮 when it is absent or not clickable. -/
def clickSubmitCommentButton (s : SessionState) :
    Except LiveError (List UIAction) :=
  if s.hasClickableSubmitButton then .ok [.clickSubmit] else .error .noSubmitButton

/-- The outcome `sendMessage` reports on success: the TS method's success
log 发送「置顶」消息 carries `successPinTop` (whether pinning actually
happened) alongside the message, which the spec surfaces as the record
`\x7b pinned \x7d`. -/
structure SendReport where
  pinned : Bool
  message : String
deriving DecidableEq, Repr

/-- `sendMessage` (lines 76-95): recover overlays, fill the comment
textarea (失败 ⇒ 找不到评论框), optionally attempt the pin-top click,
then submit.  The returned trace lists the UI actions dispatched up to the
point of return, in order. -/
def sendMessage (s : SessionState) (message : String) (pinTop : Bool) :
    Except LiveError SendReport × List UIAction :=
  let recovered := recoveryLive s
  if s.hasCommentTextarea then
    let filled := recovered ++ [.fillComment message]
    let pin := if pinTop then clickPinTopButton s else (false, [])
    let afterPin := filled ++ pin.2
    match clickSubmitCommentButton s with
    | .error e => (.error e, afterPin)
    | .ok submitActs => (.ok ⟨pin.1, message⟩, afterPin ++ submitActs)
  else (.error .noCommentBox, recovered)

/-- Modelled from the spec: `getPopUpButtonFromGoodsItem` of the
per-platform `LiveControlElementFinder` implementations, which are not
part of the controller source — "obtain the popup trigger from the
resolved handle, fail `NoPopupTrigger` if absent".  The environment map
`trigger` says which handles currently expose a popup trigger. -/
def getPopUpButtonFromGoodsItem (trigger : GoodsItem → Option Unit)
    (goodsItem : GoodsItem) : Except LiveError Unit :=
  match trigger goodsItem with
  | some b => .ok b
  | none => .error .noPopupTrigger

/-- `getPopUpButtonById` (lines 117-122): locate the goods item, then
obtain its popup trigger from the element finder. -/
def getPopUpButtonById (steps : List ScanStep)
    (trigger : GoodsItem → Option Unit) (id : Int) :
    Option (Except LiveError Unit) :=
  match findGoodsItemById id steps none with
  | none => none
  | some (.error e) => some (.error e)
  | some (.ok goodsItem) =>
    some (getPopUpButtonFromGoodsItem trigger goodsItem)

/-- `popUp` (lines 97-106): resolve the popup button for `id`, then hand it
to the platform popup strategy (embedded as an arbitrary function of the
trigger, since the strategies live outside the controller). -/
def popUp (steps : List ScanStep) (trigger : GoodsItem → Option Unit)
    (strategy : Unit → Except LiveError Unit) (id : Int) :
    Option (Except LiveError Unit) :=
  match getPopUpButtonById steps trigger id with
  | none => none
  | some (.error e) => some (.error e)
  | some (.ok button) => some (strategy button)

/-- The failures the spec documents for `popUp`:
NotFound, NoPopupTrigger, PopupConfirmationTimeout, Aborted. -/
def inPopUpTaxonomy : LiveError → Bool
  | .notFound _ => true
  | .noPopupTrigger => true
  | .popupConfirmationTimeout => true
  | .aborted => true
  | _ => false

/-- Modelled from the spec: the `abortable` decorator
(src `#/utils/decorators`, not part of the controller source) — "a
CancellationToken is threaded through every suspension point; observing it
raised must abort the current wait and propagate an `Aborted` condition up
to the command caller without performing the pending UI action".  A command
is its ordered list of pending page interactions, each preceded by a
suspension point; `raisedAt = some k` means the token is observed raised at
every suspension point from index `k` on.  Returns the command result and
the trace of interactions actually performed. -/
def runAbortable (raisedAt : Option Nat) :
    List UIAction → Nat → Except LiveError Unit × List UIAction
  | [], _ => (.ok (), [])
  | a :: rest, i =>
    match raisedAt with
    | some k =>
      if k ≤ i then (.error .aborted, [])
      else
        let r := runAbortable raisedAt rest (i + 1)
        (r.1, a :: r.2)
    | none =>
      let r := runAbortable raisedAt rest (i + 1)
      (r.1, a :: r.2)

/-- The suspension points of one scroll-and-settle cycle of the locator:
scroll the anchor into view, wait for the page to settle, re-read the
scroll position (lines 134-144). -/
def locatorScanSuspensions : List UIAction :=
  [.scrollIntoView, .settleWait, .readScrollTop]

example :
    sendMessage ⟨[], true, false, true⟩ "hi" true =
      (.ok ⟨false, "hi"⟩, [.fillComment "hi", .clickSubmit]) := by
  decide

example :
    runAbortable (some 1) locatorScanSuspensions 0 =
      (.error .aborted, [.scrollIntoView]) := by
  decide

example :
    getCurrentGoodsItem 2 [⟨0, 1⟩, ⟨1, 2⟩, ⟨2, 3⟩] = .ok ⟨⟨1, 2⟩, true⟩ := by
  decide

example :
    getCurrentGoodsItem 0 [⟨0, 1⟩, ⟨1, 2⟩, ⟨2, 3⟩] = .ok ⟨⟨0, 1⟩, false⟩ := by
  decide

example :
    getCurrentGoodsItem 11 [⟨0, 10⟩, ⟨1, 20⟩, ⟨2, 30⟩] =
      .ok ⟨⟨2, 30⟩, false⟩ := by
  decide

example :
    getCurrentGoodsItem 10 [⟨0, 9⟩, ⟨1, 8⟩, ⟨2, 7⟩] = .ok ⟨⟨0, 9⟩, false⟩ := by
  decide

example : getCurrentGoodsItem 5 [] = .error (.notFound .emptyCatalog) := by
  decide

example :
    findGoodsItemById 7 [⟨[⟨0, 1⟩], true, 50⟩, ⟨[⟨0, 1⟩], true, 55⟩] none =
      some (.error (.notFound .exhausted)) := by
  decide

theorem mem_of_getLast?_eq_some {α : Type _} {l : List α} {a : α}
    (h : l.getLast? = some a) : a ∈ l := by
  obtain ⟨hne, heq⟩ := List.mem_getLast?_eq_getLast (Option.mem_def.mpr h)
  rw [heq]
  exact List.getLast_mem hne

/-- The probe phase reports `found = true` exactly when `find?` locates a
handle with the target identifier, and then returns that handle. -/
theorem getCurrentGoodsItem_ok_true_iff (id : Int) (w : List GoodsItem)
    (g : GoodsItem) :
    getCurrentGoodsItem id w = .ok ⟨g, true⟩ ↔
      w.find? (fun x => decide (x.id = id)) = some g := by
  unfold getCurrentGoodsItem
  cases h : w.find? (fun x => decide (x.id = id)) with
  | none =>
    simp only [h]
    cases hh : w.head? with
    | none => simp
    | some g0 =>
      cases hl : w.getLast? with
      | none => simp
      | some gl =>
        simp only []
        split <;> simp
  | some a => simp [h]

/-- C1: for every visible window with pairwise-distinct identifiers, the
concurrent probe phase of `getCurrentGoodsItem` returns a handle with
`found = true` iff some handle in the window carries the target identifier;
the returned handle is the unique matching one (it is in the window, its
identifier equals the request, and every matching handle is it); and in
that case `findGoodsItemById` returns that handle directly from the probe,
with no scrolling — uniformly in the scroll container, the scroll
position, the remaining scan environment and the baseline. -/
theorem c1_probe_phase_correct (w : List GoodsItem) (id : Int)
    (huniq : (w.map GoodsItem.id).Nodup) :
    ((∃ g ∈ w, g.id = id) ↔
      ∃ g, getCurrentGoodsItem id w = .ok ⟨g, true⟩) ∧
    ∀ g, getCurrentGoodsItem id w = .ok ⟨g, true⟩ →
      g ∈ w ∧ g.id = id ∧ (∀ g2 ∈ w, g2.id = id → g2 = g) ∧
      ∀ sc st rest prev,
        findGoodsItemById id (⟨w, sc, st⟩ :: rest) prev = some (.ok g) := by
  constructor
  · constructor
    · rintro ⟨g, hg, hgid⟩
      cases h : w.find? (fun x => decide (x.id = id)) with
      | none =>
        exact absurd (by simpa using List.find?_eq_none.mp h g hg) (by simp [hgid])
      | some a =>
        exact ⟨a, (getCurrentGoodsItem_ok_true_iff id w a).mpr h⟩
    · rintro ⟨g, hg⟩
      have h := (getCurrentGoodsItem_ok_true_iff id w g).mp hg
      exact ⟨g, List.mem_of_find?_eq_some h, by simpa using List.find?_some h⟩
  · intro g hg
    have h := (getCurrentGoodsItem_ok_true_iff id w g).mp hg
    have hmem : g ∈ w := List.mem_of_find?_eq_some h
    have hid : g.id = id := by simpa using List.find?_some h
    refine ⟨hmem, hid, ?_, ?_⟩
    · intro g2 hg2 hg2id
      exact List.inj_on_of_nodup_map huniq hg2 hmem (by rw [hg2id, hid])
    · intro sc st rest prev
      simp [findGoodsItemById, scanIter, hg]

/-- Witness for C1 on the window [1, 2] with target 2. -/
theorem c1_probe_phase_correct_witness :
    ([⟨0, 1⟩, ⟨1, 2⟩].map GoodsItem.id).Nodup ∧
    (((∃ g ∈ [⟨0, 1⟩, ⟨1, 2⟩], GoodsItem.id g = 2) ↔
      ∃ g, getCurrentGoodsItem 2 [⟨0, 1⟩, ⟨1, 2⟩] = .ok ⟨g, true⟩) ∧
    ∀ g, getCurrentGoodsItem 2 [⟨0, 1⟩, ⟨1, 2⟩] = .ok ⟨g, true⟩ →
      g ∈ [⟨0, 1⟩, ⟨1, 2⟩] ∧ g.id = 2 ∧
      (∀ g2 ∈ [⟨0, 1⟩, ⟨1, 2⟩], GoodsItem.id g2 = 2 → g2 = g) ∧
      ∀ sc st rest prev,
        findGoodsItemById 2 (⟨[⟨0, 1⟩, ⟨1, 2⟩], sc, st⟩ :: rest) prev =
          some (.ok g)) :=
  ⟨by decide, c1_probe_phase_correct [⟨0, 1⟩, ⟨1, 2⟩] 2 (by decide)⟩

/-- The scroll anchor as the spec words it: ascending when the first
identifier is less than the last identifier (descending otherwise); the
first handle is the anchor exactly when the target precedes the spanned
range under that orientation (target below the first identifier for
ascending, above it for descending), the last handle otherwise. -/
def specScrollAnchor (id : Int) (firstItem lastItem : GoodsItem) : GoodsItem :=
  if firstItem.id < lastItem.id then
    if id < firstItem.id then firstItem else lastItem
  else
    if id > firstItem.id then firstItem else lastItem

theorem find?_eq_none_of_no_match {id : Int} {w : List GoodsItem}
    (hnm : ∀ g ∈ w, g.id ≠ id) :
    w.find? (fun x => decide (x.id = id)) = none :=
  List.find?_eq_none.mpr (fun x hx => by simpa using hnm x hx)

/-- C2: on a non-empty window (with the catalog-uniqueness invariant) in
which no handle matches the target, `getCurrentGoodsItem` reports
`found = false` and anchors exactly as the spec's orientation rule
predicts: first handle when the target precedes the spanned range under
the detected orientation, last handle otherwise. -/
theorem c2_orientation_and_direction (w : List GoodsItem) (id : Int)
    (g0 gl : GoodsItem)
    (huniq : (w.map GoodsItem.id).Nodup)
    (hnm : ∀ g ∈ w, g.id ≠ id)
    (h0 : w.head? = some g0) (hl : w.getLast? = some gl) :
    getCurrentGoodsItem id w = .ok ⟨specScrollAnchor id g0 gl, false⟩ := by
  have hfind := find?_eq_none_of_no_match hnm
  have h0mem : g0 ∈ w := List.mem_of_mem_head? (Option.mem_def.mpr h0)
  have hlmem : gl ∈ w := mem_of_getLast?_eq_some hl
  unfold getCurrentGoodsItem
  simp only [hfind, h0, hl]
  rcases lt_trichotomy g0.id gl.id with hlt | heq | hgt
  · by_cases hid : id < g0.id
    · rw [if_pos (Or.inl ⟨by omega, hid⟩)]
      simp [specScrollAnchor, hlt, hid]
    · rw [if_neg (by omega)]
      simp [specScrollAnchor, hlt, hid]
  · have hsame : g0 = gl := List.inj_on_of_nodup_map huniq h0mem hlmem heq
    subst hsame
    have hspec : specScrollAnchor id g0 g0 = g0 := by
      unfold specScrollAnchor
      split <;> split <;> rfl
    rw [hspec]
    split <;> rfl
  · have hnl : ¬ g0.id < gl.id := by omega
    by_cases hid : id > g0.id
    · rw [if_pos (Or.inr ⟨by omega, hid⟩)]
      simp [specScrollAnchor, hid, hnl]
    · rw [if_neg (by omega)]
      simp [specScrollAnchor, hid, hnl]

/-- Witness for C2 on the descending window [9, 8, 7] with target 10,
which must anchor at the first handle. -/
theorem c2_orientation_and_direction_witness :
    ((([⟨0, 9⟩, ⟨1, 8⟩, ⟨2, 7⟩] : List GoodsItem).map GoodsItem.id).Nodup ∧
      (∀ g ∈ ([⟨0, 9⟩, ⟨1, 8⟩, ⟨2, 7⟩] : List GoodsItem), GoodsItem.id g ≠ 10) ∧
      ([⟨0, 9⟩, ⟨1, 8⟩, ⟨2, 7⟩] : List GoodsItem).head? = some ⟨0, 9⟩ ∧
      ([⟨0, 9⟩, ⟨1, 8⟩, ⟨2, 7⟩] : List GoodsItem).getLast? = some ⟨2, 7⟩) ∧
    getCurrentGoodsItem 10 [⟨0, 9⟩, ⟨1, 8⟩, ⟨2, 7⟩] =
      .ok ⟨specScrollAnchor 10 ⟨0, 9⟩ ⟨2, 7⟩, false⟩ :=
  ⟨⟨by decide, by decide, by decide, by decide⟩,
    c2_orientation_and_direction [⟨0, 9⟩, ⟨1, 8⟩, ⟨2, 7⟩] 10 ⟨0, 9⟩ ⟨2, 7⟩
      (by decide) (by decide) (by decide) (by decide)⟩

/-- The target lies within the range spanned by the first and last visible
identifiers under the detected orientation (spec wording). -/
def inVisibleRange (id : Int) (firstItem lastItem : GoodsItem) : Prop :=
  (firstItem.id > lastItem.id ∧ lastItem.id ≤ id ∧ id ≤ firstItem.id) ∨
  (¬ firstItem.id > lastItem.id ∧ firstItem.id ≤ id ∧ id ≤ lastItem.id)

/-- The visible-range boundary nearer to the target (spec wording for the
in-range-but-unmatched loading edge). -/
def nearerBoundary (id : Int) (firstItem lastItem : GoodsItem) : GoodsItem :=
  if (id - firstItem.id).natAbs ≤ (id - lastItem.id).natAbs then firstItem
  else lastItem

/-- C3 counterexample: on the ascending window [10, 20, 30] with the
unmatched in-range target 11, the nearer boundary is the first handle, but
`getCurrentGoodsItem` anchors at the last handle. -/
theorem c3_counterexample :
    (∀ g ∈ ([⟨0, 10⟩, ⟨1, 20⟩, ⟨2, 30⟩] : List GoodsItem),
      GoodsItem.id g ≠ 11) ∧
    inVisibleRange 11 ⟨0, 10⟩ ⟨2, 30⟩ ∧
    nearerBoundary 11 ⟨0, 10⟩ ⟨2, 30⟩ = ⟨0, 10⟩ ∧
    getCurrentGoodsItem 11 [⟨0, 10⟩, ⟨1, 20⟩, ⟨2, 30⟩] =
      .ok ⟨⟨2, 30⟩, false⟩ ∧
    (⟨2, 30⟩ : GoodsItem) ≠ ⟨0, 10⟩ := by
  refine ⟨by decide, ?_, by decide, by decide, by decide⟩
  right
  refine ⟨by decide, by decide, by decide⟩

/-- C3 amended: when no handle matches and the target lies within the
visible range under the detected orientation, the locator always anchors
at the last visible handle (the lower edge) — not at whichever boundary is
nearer to the target. -/
theorem c3_amended_in_range_anchors_last (w : List GoodsItem) (id : Int)
    (g0 gl : GoodsItem)
    (hnm : ∀ g ∈ w, g.id ≠ id)
    (h0 : w.head? = some g0) (hl : w.getLast? = some gl)
    (hin : inVisibleRange id g0 gl) :
    getCurrentGoodsItem id w = .ok ⟨gl, false⟩ := by
  have hfind := find?_eq_none_of_no_match hnm
  unfold getCurrentGoodsItem
  simp only [hfind, h0, hl]
  rcases hin with ⟨h1, h2, h3⟩ | ⟨h1, h2, h3⟩ <;> rw [if_neg (by omega)]

/-- Witness for the amended C3 on the window [10, 20, 30] with target 29:
the nearer boundary happens to agree there, and the code anchors last. -/
theorem c3_amended_in_range_anchors_last_witness :
    ((∀ g ∈ ([⟨0, 10⟩, ⟨1, 20⟩, ⟨2, 30⟩] : List GoodsItem),
        GoodsItem.id g ≠ 29) ∧
      ([⟨0, 10⟩, ⟨1, 20⟩, ⟨2, 30⟩] : List GoodsItem).head? = some ⟨0, 10⟩ ∧
      ([⟨0, 10⟩, ⟨1, 20⟩, ⟨2, 30⟩] : List GoodsItem).getLast? = some ⟨2, 30⟩ ∧
      inVisibleRange 29 ⟨0, 10⟩ ⟨2, 30⟩) ∧
    getCurrentGoodsItem 29 [⟨0, 10⟩, ⟨1, 20⟩, ⟨2, 30⟩] =
      .ok ⟨⟨2, 30⟩, false⟩ :=
  ⟨⟨by decide, by decide, by decide, Or.inr ⟨by decide, by decide, by decide⟩⟩,
    c3_amended_in_range_anchors_last [⟨0, 10⟩, ⟨1, 20⟩, ⟨2, 30⟩] 29
      ⟨0, 10⟩ ⟨2, 30⟩ (by decide) (by decide) (by decide)
      (Or.inr ⟨by decide, by decide, by decide⟩)⟩

theorem getCurrentGoodsItem_nil (id : Int) :
    getCurrentGoodsItem id [] = .error (.notFound .emptyCatalog) := rfl

/-- On a non-empty window with no matching handle, the probe returns some
anchor handle of the window with `found = false`. -/
theorem getCurrentGoodsItem_no_match_nonempty {id : Int} {w : List GoodsItem}
    (hnm : ∀ g ∈ w, g.id ≠ id) (hne : w ≠ []) :
    ∃ a, a ∈ w ∧ getCurrentGoodsItem id w = .ok ⟨a, false⟩ := by
  have hfind := find?_eq_none_of_no_match hnm
  obtain ⟨g0, hg0⟩ : ∃ g0, w.head? = some g0 := by
    cases w with
    | nil => exact absurd rfl hne
    | cons a l => exact ⟨a, rfl⟩
  have hgl := List.getLast?_eq_getLast_of_ne_nil hne
  have h0mem : g0 ∈ w := List.mem_of_mem_head? (Option.mem_def.mpr hg0)
  have hlmem : w.getLast hne ∈ w := List.getLast_mem hne
  unfold getCurrentGoodsItem
  simp only [hfind, hg0, hgl]
  split
  · exact ⟨g0, h0mem, rfl⟩
  · exact ⟨w.getLast hne, hlmem, rfl⟩

/-- C4: in an unmatched scan iteration, the NotFound failures arise in
exactly two situations — the empty-catalog failure iff the window is
empty, and the exhausted failure iff the window is non-empty, the scroll
container is present, and the re-read scroll position lies within the ±10
tolerance band of a non-NaN baseline; in every other unmatched iteration
`findGoodsItemById` recurses on the remaining environment with the newly
read scroll position as the next baseline. -/
theorem c4_notfound_characterization (step : ScanStep) (rest : List ScanStep)
    (id : Int) (prev : Option Int)
    (hnm : ∀ g ∈ step.window, g.id ≠ id) :
    (scanIter id prev step = .fail (.notFound .emptyCatalog) ↔
      step.window = []) ∧
    (scanIter id prev step = .fail (.notFound .exhausted) ↔
      step.window ≠ [] ∧ step.scrollContainer = true ∧
      ∃ p, prev = some p ∧ p - 10 ≤ step.scrollTopAfterSettle ∧
        step.scrollTopAfterSettle ≤ p + 10) ∧
    (step.window ≠ [] → step.scrollContainer = true →
      (∀ p, prev = some p →
        ¬ (p - 10 ≤ step.scrollTopAfterSettle ∧
            step.scrollTopAfterSettle ≤ p + 10)) →
      findGoodsItemById id (step :: rest) prev =
        findGoodsItemById id rest (some step.scrollTopAfterSettle)) := by
  obtain ⟨wdw, sc, stp⟩ := step
  dsimp only at hnm ⊢
  by_cases hwin : wdw = []
  · subst hwin
    refine ⟨iff_of_true rfl rfl, ?_, ?_⟩
    · constructor
      · intro h
        rw [show scanIter id prev ⟨[], sc, stp⟩ =
            .fail (.notFound .emptyCatalog) from rfl] at h
        simp at h
      · rintro ⟨h, -⟩
        exact absurd rfl h
    · intro hne
      exact absurd rfl hne
  · obtain ⟨a, hamem, hgc⟩ := getCurrentGoodsItem_no_match_nonempty hnm hwin
    cases sc with
    | false =>
      have hsi : scanIter id prev ⟨wdw, false, stp⟩ =
          .fail .noScrollContainer := by
        simp [scanIter, hgc]
      refine ⟨by rw [hsi]; simp [hwin], by rw [hsi]; simp, ?_⟩
      intro _ hsc2
      exact Bool.noConfusion hsc2
    | true =>
      cases prev with
      | none =>
        have hsi : scanIter id none ⟨wdw, true, stp⟩ = .next stp := by
          simp [scanIter, hgc]
        refine ⟨by rw [hsi]; simp [hwin], by rw [hsi]; simp, ?_⟩
        intro _ _ _
        simp [findGoodsItemById, hsi]
      | some p =>
        by_cases hband : p - 10 ≤ stp ∧ stp ≤ p + 10
        · have hsi : scanIter id (some p) ⟨wdw, true, stp⟩ =
              .fail (.notFound .exhausted) := by
            simp [scanIter, hgc, hband]
          refine ⟨by rw [hsi]; simp [hwin], ?_, ?_⟩
          · constructor
            · intro _
              exact ⟨hwin, rfl, p, rfl, hband.1, hband.2⟩
            · intro _
              exact hsi
          · intro _ _ hnost
            exact absurd hband (hnost p rfl)
        · have hsi : scanIter id (some p) ⟨wdw, true, stp⟩ = .next stp := by
            simp only [scanIter, hgc]
            rw [if_neg hband]
            simp
          refine ⟨by rw [hsi]; simp [hwin], ?_, ?_⟩
          · constructor
            · intro h
              rw [hsi] at h
              exact IterOutcome.noConfusion h
            · rintro ⟨-, -, p2, hp2, hb1, hb2⟩
              cases Option.some.inj hp2
              exact absurd ⟨hb1, hb2⟩ hband
          · intro _ _ _
            simp [findGoodsItemById, hsi]

/-- Witness for C4: a non-empty unmatched window with the container
present, a baseline of 0 and a settled position of 100. -/
theorem c4_notfound_characterization_witness :
    (∀ g ∈ ScanStep.window ⟨[⟨0, 5⟩], true, 100⟩, GoodsItem.id g ≠ 7) ∧
    ((scanIter 7 (some 0) ⟨[⟨0, 5⟩], true, 100⟩ =
        .fail (.notFound .emptyCatalog) ↔
      ScanStep.window ⟨[⟨0, 5⟩], true, 100⟩ = []) ∧
    (scanIter 7 (some 0) ⟨[⟨0, 5⟩], true, 100⟩ =
        .fail (.notFound .exhausted) ↔
      ScanStep.window ⟨[⟨0, 5⟩], true, 100⟩ ≠ [] ∧
      ScanStep.scrollContainer ⟨[⟨0, 5⟩], true, 100⟩ = true ∧
      ∃ p, (some 0 : Option Int) = some p ∧
        p - 10 ≤ ScanStep.scrollTopAfterSettle ⟨[⟨0, 5⟩], true, 100⟩ ∧
        ScanStep.scrollTopAfterSettle ⟨[⟨0, 5⟩], true, 100⟩ ≤ p + 10) ∧
    (ScanStep.window ⟨[⟨0, 5⟩], true, 100⟩ ≠ [] →
      ScanStep.scrollContainer ⟨[⟨0, 5⟩], true, 100⟩ = true →
      (∀ p, (some 0 : Option Int) = some p →
        ¬ (p - 10 ≤ ScanStep.scrollTopAfterSettle ⟨[⟨0, 5⟩], true, 100⟩ ∧
            ScanStep.scrollTopAfterSettle ⟨[⟨0, 5⟩], true, 100⟩ ≤ p + 10)) →
      findGoodsItemById 7 (⟨[⟨0, 5⟩], true, 100⟩ :: []) (some 0) =
        findGoodsItemById 7 []
          (some (ScanStep.scrollTopAfterSettle ⟨[⟨0, 5⟩], true, 100⟩)))) :=
  ⟨by decide, c4_notfound_characterization ⟨[⟨0, 5⟩], true, 100⟩ [] 7 (some 0)
    (by decide)⟩

/-- The probe itself can only raise the empty-catalog error, never the
exhausted one. -/
theorem getCurrentGoodsItem_ne_exhausted (id : Int) (w : List GoodsItem) :
    getCurrentGoodsItem id w ≠ .error (.notFound .exhausted) := by
  unfold getCurrentGoodsItem
  cases h : w.find? (fun x => decide (x.id = id)) with
  | some a => simp
  | none =>
    cases hh : w.head? with
    | none =>
      cases hl : w.getLast? <;> simp
    | some g0 =>
      cases hl : w.getLast? with
      | none => simp
      | some gl =>
        simp only []
        split <;> simp

theorem scanIter_none_ne_exhausted (id : Int) (s : ScanStep) :
    scanIter id none s ≠ .fail (.notFound .exhausted) := by
  unfold scanIter
  cases hgc : getCurrentGoodsItem id s.window with
  | error e =>
    simp only [hgc]
    intro h
    exact getCurrentGoodsItem_ne_exhausted id s.window
      (by rw [hgc, IterOutcome.fail.inj h])
  | ok r =>
    simp only [hgc]
    by_cases hf : r.found <;> by_cases hsc : s.scrollContainer = false <;>
      simp [hf, hsc]

/-- C8: with the scroll baseline initialized to NaN (embedded as `none`),
neither the first scan iteration nor a one-iteration run of the locator
can fail with the stagnation (exhausted) NotFound: the stagnation check
requires a non-NaN baseline, so at least one scroll-and-settle cycle
completes before that failure is reachable. -/
theorem c8_first_iteration_no_stagnation (id : Int) (s : ScanStep) :
    scanIter id none s ≠ .fail (.notFound .exhausted) ∧
    findGoodsItemById id [s] none ≠ some (.error (.notFound .exhausted)) := by
  refine ⟨scanIter_none_ne_exhausted id s, ?_⟩
  unfold findGoodsItemById
  cases hsi : scanIter id none s with
  | found g => simp
  | fail e =>
    simp only []
    intro h
    exact scanIter_none_ne_exhausted id s
      (by rw [hsi, Except.error.inj (Option.some.inj h)])
  | next cur => simp [findGoodsItemById]

/-- Every suspension point of `runAbortable` from index `i` on aborts as
soon as the signal raised at index `k ≥ i` is observed, performing exactly
the interactions strictly before `k`. -/
theorem runAbortable_raised (steps : List UIAction) :
    ∀ i k : Nat, i ≤ k → k - i < steps.length →
      runAbortable (some k) steps i = (.error .aborted, steps.take (k - i)) := by
  induction steps with
  | nil =>
    intro i k hik hlt
    simp at hlt
  | cons a rest ih =>
    intro i k hik hlt
    unfold runAbortable
    by_cases hk : k ≤ i
    · have hki : k = i := le_antisymm hk hik
      subst hki
      simp
    · have hik2 : i + 1 ≤ k := by omega
      have hlt2 : k - (i + 1) < rest.length := by
        simp at hlt
        omega
      dsimp only
      rw [if_neg hk]
      simp only [ih (i + 1) k hik2 hlt2]
      have hsucc : k - i = (k - (i + 1)) + 1 := by omega
      rw [hsucc]
      simp

/-- C5: once the per-command cancellation signal is raised at suspension
point `k` of a command (a list of pending page interactions, each preceded
by a suspension point, as in `sendMessage`, `popUp` and the locator scan
whose scroll-and-settle cycle is `locatorScanSuspensions`), the command
fails Aborted without performing the pending interaction at `k` or any
later one: exactly the interactions before `k` are performed.
(Modelled from the spec: the abortable decorator of `#/utils/decorators`
is not part of the controller source.) -/
theorem c5_cancellation_aborts (steps : List UIAction) (k : Nat)
    (hk : k < steps.length) :
    runAbortable (some k) steps 0 = (.error .aborted, steps.take k) := by
  have h := runAbortable_raised steps 0 k (Nat.zero_le k) (by simpa using hk)
  simpa using h

/-- Witness for C5: the signal raised at the scroll-settle wait of the
locator scan cycle aborts with only the already-issued scroll performed —
the settle wait's pending read and everything after are not issued. -/
theorem c5_cancellation_aborts_witness :
    1 < locatorScanSuspensions.length ∧
    runAbortable (some 1) locatorScanSuspensions 0 =
      (.error .aborted, locatorScanSuspensions.take 1) :=
  ⟨by decide, c5_cancellation_aborts locatorScanSuspensions 1 (by decide)⟩

/-- Overlay recovery dispatches only overlay-dismiss clicks. -/
theorem not_mem_recoveryLive (s : SessionState) (a : UIAction)
    (ha : ∀ sel, a ≠ .dismissOverlay sel) : a ∉ recoveryLive s := by
  intro hmem
  obtain ⟨sel, -, hsel⟩ := List.mem_map.mp hmem
  exact ha sel hsel.symm

/-- C6: on a session whose comment input is present, whose submit control
is clickable and whose pin control is absent, `sendMessage` with pinning
requested succeeds, still fills and submits the text, and reports
`pinned = false`; in general a successful `sendMessage` reports
`pinned = true` exactly when the pin control was actually clicked. -/
theorem c6_pin_absent_soft (s : SessionState) (msg : String)
    (hta : s.hasCommentTextarea = true)
    (hsb : s.hasClickableSubmitButton = true)
    (hpin : s.hasPinTopLabel = false) :
    (sendMessage s msg true).1 = .ok ⟨false, msg⟩ ∧
    .fillComment msg ∈ (sendMessage s msg true).2 ∧
    .clickSubmit ∈ (sendMessage s msg true).2 ∧
    (∀ s2 msg2 pin2 r tr, sendMessage s2 msg2 pin2 = (.ok r, tr) →
      (r.pinned = true ↔ .clickPin ∈ tr)) := by
  refine ⟨?_, ?_, ?_, ?_⟩
  · simp [sendMessage, clickPinTopButton, clickSubmitCommentButton, hta, hsb,
      hpin]
  · simp [sendMessage, clickPinTopButton, clickSubmitCommentButton, hta, hsb,
      hpin]
  · simp [sendMessage, clickPinTopButton, clickSubmitCommentButton, hta, hsb,
      hpin]
  · intro s2 msg2 pin2 r tr h
    have hnopin : UIAction.clickPin ∉ recoveryLive s2 :=
      not_mem_recoveryLive s2 .clickPin (fun sel => by simp)
    unfold sendMessage at h
    by_cases hta2 : s2.hasCommentTextarea = true
    · rw [if_pos hta2] at h
      unfold clickSubmitCommentButton at h
      by_cases hsb2 : s2.hasClickableSubmitButton = true
      · rw [if_pos hsb2] at h
        obtain ⟨hr, htr⟩ := Prod.mk.injEq .. ▸ h
        obtain hr2 := Except.ok.inj hr
        subst htr
        cases pin2 with
        | false =>
          subst hr2
          simp [hnopin]
        | true =>
          unfold clickPinTopButton at hr2 ⊢
          by_cases hpin2 : s2.hasPinTopLabel = true
          · rw [if_pos hpin2] at hr2
            subst hr2
            simp [clickPinTopButton, hpin2]
          · rw [if_neg hpin2] at hr2
            subst hr2
            simp [clickPinTopButton, hpin2, hnopin]
      · rw [if_neg hsb2] at h
        exact absurd (congrArg Prod.fst h) (by simp)
    · rw [if_neg hta2] at h
      exact absurd (congrArg Prod.fst h) (by simp)

/-- Witness for C6: pin control absent, input and submit present. -/
theorem c6_pin_absent_soft_witness :
    (SessionState.hasCommentTextarea ⟨[], true, false, true⟩ = true ∧
      SessionState.hasClickableSubmitButton ⟨[], true, false, true⟩ = true ∧
      SessionState.hasPinTopLabel ⟨[], true, false, true⟩ = false) ∧
    ((sendMessage ⟨[], true, false, true⟩ "hi" true).1 = .ok ⟨false, "hi"⟩ ∧
      .fillComment "hi" ∈ (sendMessage ⟨[], true, false, true⟩ "hi" true).2 ∧
      .clickSubmit ∈ (sendMessage ⟨[], true, false, true⟩ "hi" true).2 ∧
      (∀ s2 msg2 pin2 r tr, sendMessage s2 msg2 pin2 = (.ok r, tr) →
        (r.pinned = true ↔ .clickPin ∈ tr))) :=
  ⟨⟨rfl, rfl, rfl⟩,
    c6_pin_absent_soft ⟨[], true, false, true⟩ "hi" rfl rfl rfl⟩

/-- C9: when `sendMessage` fails because the submit control is absent or
not clickable, the text has already been filled — and, when pinning was
requested and the pin control present, the pin control has already been
clicked — with no rollback, and no submit click is ever dispatched. -/
theorem c9_no_rollback_on_submit_failure (s : SessionState) (msg : String)
    (pin : Bool)
    (hta : s.hasCommentTextarea = true)
    (hsb : s.hasClickableSubmitButton = false) :
    (sendMessage s msg pin).1 = .error .noSubmitButton ∧
    .fillComment msg ∈ (sendMessage s msg pin).2 ∧
    (pin = true → s.hasPinTopLabel = true →
      .clickPin ∈ (sendMessage s msg pin).2) ∧
    .clickSubmit ∉ (sendMessage s msg pin).2 := by
  have hnosub : UIAction.clickSubmit ∉ recoveryLive s :=
    not_mem_recoveryLive s .clickSubmit (fun sel => by simp)
  refine ⟨?_, ?_, ?_, ?_⟩
  · simp [sendMessage, clickSubmitCommentButton, hta, hsb]
  · simp [sendMessage, clickSubmitCommentButton, hta, hsb]
  · intro hp hlab
    simp [sendMessage, clickSubmitCommentButton, clickPinTopButton, hta, hsb,
      hp, hlab]
  · cases pin with
    | false =>
      simp [sendMessage, clickSubmitCommentButton, clickPinTopButton, hta,
        hsb, hnosub]
    | true =>
      by_cases hlab : s.hasPinTopLabel = true <;>
        simp [sendMessage, clickSubmitCommentButton, clickPinTopButton, hta,
          hsb, hlab, hnosub]

/-- Witness for C9: input present, pin control present, submit control not
clickable; pinning requested. -/
theorem c9_no_rollback_on_submit_failure_witness :
    (SessionState.hasCommentTextarea ⟨[], true, true, false⟩ = true ∧
      SessionState.hasClickableSubmitButton ⟨[], true, true, false⟩ = false) ∧
    ((sendMessage ⟨[], true, true, false⟩ "hi" true).1 =
        .error .noSubmitButton ∧
      .fillComment "hi" ∈ (sendMessage ⟨[], true, true, false⟩ "hi" true).2 ∧
      (true = true → SessionState.hasPinTopLabel ⟨[], true, true, false⟩ = true →
        .clickPin ∈ (sendMessage ⟨[], true, true, false⟩ "hi" true).2) ∧
      .clickSubmit ∉ (sendMessage ⟨[], true, true, false⟩ "hi" true).2) :=
  ⟨⟨rfl, rfl⟩,
    c9_no_rollback_on_submit_failure ⟨[], true, true, false⟩ "hi" true rfl rfl⟩

/-- C7: when the locator resolves the goods item but the page exposes no
popup trigger for it, `popUp` fails with NoPopupTrigger — one of its
documented failures — independently of the popup strategy, which is never
consulted.  (The trigger-obtaining step is modelled from the spec, since
the per-platform element finders are not part of the controller source.) -/
theorem c7_no_popup_trigger (steps : List ScanStep)
    (trigger : GoodsItem → Option Unit) (id : Int) (g : GoodsItem)
    (hloc : findGoodsItemById id steps none = some (.ok g))
    (habs : trigger g = none) :
    (∀ strategy, popUp steps trigger strategy id =
      some (.error .noPopupTrigger)) ∧
    inPopUpTaxonomy .noPopupTrigger = true := by
  refine ⟨?_, rfl⟩
  intro strategy
  simp [popUp, getPopUpButtonById, hloc, getPopUpButtonFromGoodsItem, habs]

/-- Witness for C7: a window containing item 42 whose trigger map is empty. -/
theorem c7_no_popup_trigger_witness :
    (findGoodsItemById 42 [⟨[⟨0, 42⟩], true, 0⟩] none =
        some (.ok ⟨0, 42⟩) ∧
      (fun _ : GoodsItem => (none : Option Unit)) ⟨0, 42⟩ = none) ∧
    ((∀ strategy, popUp [⟨[⟨0, 42⟩], true, 0⟩] (fun _ => none) strategy 42 =
        some (.error .noPopupTrigger)) ∧
      inPopUpTaxonomy .noPopupTrigger = true) :=
  ⟨⟨by decide, rfl⟩,
    c7_no_popup_trigger [⟨[⟨0, 42⟩], true, 0⟩] (fun _ => none) 42 ⟨0, 42⟩
      (by decide) rfl⟩

/-- C10: an unmatched non-empty iteration with the scroll container absent
raises the scroll-container error, which is not a NotFound failure and is
outside the documented popUp taxonomy, and `popUp` surfaces it as its
result. -/
theorem c10_missing_scroll_container (step : ScanStep) (rest : List ScanStep)
    (id : Int) (prev : Option Int)
    (hnm : ∀ g ∈ step.window, g.id ≠ id)
    (hne : step.window ≠ [])
    (hsc : step.scrollContainer = false) :
    findGoodsItemById id (step :: rest) prev =
      some (.error .noScrollContainer) ∧
    (∀ r, LiveError.noScrollContainer ≠ .notFound r) ∧
    inPopUpTaxonomy .noScrollContainer = false ∧
    ∀ trigger strategy, popUp (step :: rest) trigger strategy id =
      some (.error .noScrollContainer) := by
  obtain ⟨wdw, sc, stp⟩ := step
  dsimp only at hnm hne hsc ⊢
  subst hsc
  obtain ⟨a, hamem, hgc⟩ := getCurrentGoodsItem_no_match_nonempty hnm hne
  have hsi : ∀ pv, scanIter id pv ⟨wdw, false, stp⟩ =
      .fail .noScrollContainer := by
    intro pv
    simp [scanIter, hgc]
  have hfind : ∀ pv, findGoodsItemById id (⟨wdw, false, stp⟩ :: rest) pv =
      some (.error .noScrollContainer) := by
    intro pv
    simp [findGoodsItemById, hsi]
  refine ⟨hfind prev, ?_, rfl, ?_⟩
  · intro r h
    exact LiveError.noConfusion h
  · intro trigger strategy
    simp [popUp, getPopUpButtonById, hfind none]

/-- Witness for C10: window [5], target 7, scroll container absent. -/
theorem c10_missing_scroll_container_witness :
    ((∀ g ∈ ScanStep.window ⟨[⟨0, 5⟩], false, 0⟩, GoodsItem.id g ≠ 7) ∧
      ScanStep.window ⟨[⟨0, 5⟩], false, 0⟩ ≠ [] ∧
      ScanStep.scrollContainer ⟨[⟨0, 5⟩], false, 0⟩ = false) ∧
    (findGoodsItemById 7 (⟨[⟨0, 5⟩], false, 0⟩ :: []) none =
        some (.error .noScrollContainer) ∧
      (∀ r, LiveError.noScrollContainer ≠ .notFound r) ∧
      inPopUpTaxonomy .noScrollContainer = false ∧
      ∀ trigger strategy, popUp (⟨[⟨0, 5⟩], false, 0⟩ :: []) trigger strategy 7 =
        some (.error .noScrollContainer)) :=
  ⟨⟨by decide, by decide, rfl⟩,
    c10_missing_scroll_container ⟨[⟨0, 5⟩], false, 0⟩ [] 7 none (by decide)
      (by decide) rfl⟩
